import Mathlib

/-!
Shallow embedding of `src/client.py` (the Deepgram voice-agent session client).

Conventions of the embedding:
* Wall-clock times (`time.time()`) are rationals supplied as inputs; each text
  message carries `now` (the `current_time` / `start_time` read on arrival) and
  `fin` (the `time.time()` read after a function handler returns, used for the
  execution-latency log and for `last_function_response_time`).
* Python `None`-able values read with `dict.get` are `Option`s; Python
  truthiness of an optional float (`if last_user_message:`) is the `truthy`
  predicate below (`None` and `0.0` are falsy).
* The transport is modelled as reliable: every `ws.send` succeeds and is
  recorded as an `Action`; inbound traffic is a finite list of messages.  A
  blocking `ws.recv` whose awaited message never arrives is modelled by the
  farewell helpers returning `none` for the remaining stream.
* Binary audio payloads are opaque `Nat` identifiers.
* Log lines whose text embeds a formatted float (`f"...{latency:.3f}s"`) are
  modelled by dedicated actions carrying the rational value instead of a
  rendered string.
-/

namespace Client

/-- Opaque binary audio frame (one websocket binary message / one PCM chunk). -/
abbrev Frame := Nat

/-- Python truthiness of an optional float: `None` and `0.0` are falsy. -/
def truthy : Option ℚ → Bool
  | none => false
  | some t => t ≠ 0

/-- A parsed JSON control message, as read field-by-field with
`message_json.get(...)` in `VoiceAgent.receiver`.  Absent keys are `none`;
`input` is the textual rendering of the `parameters` payload (only logged). -/
structure ControlMsg where
  type : Option String
  role : Option String
  content : Option String
  function_name : Option String
  function_call_id : Option String
  session_id : Option String
  input : String
deriving Repr, DecidableEq

/-- One inbound websocket message, as produced by `async for message in self.ws`
or `await ws.recv()`: raw binary audio, or text together with the result of
`json.loads` (`none` when the text is not valid JSON) and the two clock reads
described in the module docstring. -/
inductive InMessage
  | binary (data : Frame)
  | text (raw : String) (parsed : Option ControlMsg) (now : ℚ) (fin : ℚ)
deriving Repr, DecidableEq

/-- Output field of an outbound `FunctionCallResponse`:
`json.dumps(result)` on success, `json.dumps({"error": msg})` on failure. -/
inductive FnOutput
  | success (s : String)
  | error (msg : String)
deriving Repr, DecidableEq

/-- An outbound text control message sent with `ws.send`. -/
inductive OutMsg
  | functionCallResponse (function_call_id : Option String) (output : FnOutput)
  | injectAgentMessage (message : String)
deriving Repr, DecidableEq

/-- Observable effects of the receiver / dispatcher, in program order. -/
inductive Action
  | logInfo (s : String)
  | logError (s : String)
  | emitConversationUpdate (m : ControlMsg)
  | send (m : OutMsg)
  | play (data : Frame)
  | sleep (t : ℚ)
  | wsClose
  | wsCloseWithTimeout
  | logLatencyChain (l : ℚ)
  | logLatencyInitial (l : ℚ)
  | logExecLatency (l : ℚ)
deriving Repr, DecidableEq

/-- State of the `Speaker`: the janus playback queue contents and the
`threading.Event` that tells the `_play` sink thread to exit. -/
structure SpeakerState where
  queue : List Frame
  stopEvent : Bool
deriving Repr, DecidableEq

/-- The drain loop inside `Speaker.stop`:
`while not empty: get_nowait()` — removes entries until the queue is empty. -/
def drainLoop : List Frame → List Frame
  | [] => []
  | _ :: rest => drainLoop rest

/-- `Speaker.stop` (src/client.py:431-437): drains the queue; the stop event
and the sink thread are untouched. -/
def SpeakerState.stop (sp : SpeakerState) : SpeakerState :=
  { sp with queue := drainLoop sp.queue }

/-- `Speaker.play`: enqueue a frame for the sink thread. -/
def SpeakerState.play (sp : SpeakerState) (d : Frame) : SpeakerState :=
  { sp with queue := sp.queue ++ [d] }

/-- One iteration of the `_play` sink-thread loop (src/client.py:440-446):
if the stop event is set the thread exits (writes nothing); otherwise it pops
the head frame, if any, and writes it to the hardware stream. -/
def playStep (sp : SpeakerState) : SpeakerState × Option Frame :=
  if sp.stopEvent then (sp, none)
  else
    match sp.queue with
    | [] => (sp, none)
    | d :: rest => ({ sp with queue := rest }, some d)

/-! ### Capture callback (`VoiceAgent.audio_callback`, src/client.py:135-144) -/

/-- `pyaudio.paContinue`. -/
def paContinue : Nat := 0

/-- Result of one invocation of the hardware capture callback: the state of the
mic queue afterwards, the log lines emitted, and the value returned to the
hardware layer. -/
structure CallbackResult where
  micQueue : List Frame
  logs : List Action
  ret : Frame × Nat
deriving Repr, DecidableEq

/-- `VoiceAgent.audio_callback`.  `running` is `self.is_running`, `loopOk` is
`self.loop and not self.loop.is_closed()`.  `attempt` models the outcome of
`future.result(timeout=1)` for the cross-thread enqueue: `none` means the
enqueue completed in time, `some e` means it raised (timeout or otherwise)
with message `e`; the `except` swallows it and logs.  The callback always
returns `(input_data, paContinue)`. -/
def audio_callback (running loopOk : Bool) (q : List Frame) (input_data : Frame)
    (attempt : Option String) : CallbackResult :=
  if running && loopOk then
    match attempt with
    | none => { micQueue := q ++ [input_data], logs := [], ret := (input_data, paContinue) }
    | some e =>
        { micQueue := q
          logs := [.logError ("Error in audio callback: " ++ e)]
          ret := (input_data, paContinue) }
  else { micQueue := q, logs := [], ret := (input_data, paContinue) }

/-! ### Setup and run (`VoiceAgent.setup` / `VoiceAgent.run`) -/

/-- `VoiceAgent.setup` (src/client.py:110-133).  `apiKey` is
`os.environ.get("DEEPGRAM_API_KEY")`; `handshakeOk` tells whether the
`websockets.connect` + initial settings `ws.send` pair succeeded.  Returns
`False` on missing credential or handshake failure, `True` otherwise. -/
def setup (apiKey : Option String) (handshakeOk : Bool) : Bool :=
  match apiKey with
  | none => false
  | some _ => handshakeOk

/-- Lifecycle steps taken by `VoiceAgent.run`. -/
inductive RunAction
  | startMicrophone (ok : Bool)
  | startSender
  | startReceiver
  | cleanup
  | closeWs
deriving Repr, DecidableEq

/-- `VoiceAgent.run` (src/client.py:376-393) as the sequence of lifecycle steps
it performs.  If `setup` fails it returns immediately; otherwise it starts the
microphone (`micOk` = whether `start_microphone` raised), and on success runs
the sender and receiver tasks; the `finally` block always cleans up and closes
the websocket once pipelines were started. -/
def run (apiKey : Option String) (handshakeOk : Bool) (micOk : Bool) : List RunAction :=
  if setup apiKey handshakeOk then
    if micOk then
      [.startMicrophone true, .startSender, .startReceiver, .cleanup, .closeWs]
    else
      [.startMicrophone false, .cleanup, .closeWs]
  else []

/-! ### Function dispatcher environment -/

/-- Result dict of a transport-aware handler (`agent_filler` / `end_call`).
Modelled from the spec: the handlers live in `common/agent_functions` (not
part of this repository's sources); per the spec they return
`{response, injected_message, [close_message]}`.  `inject_message` is the
farewell/filler text (`result["inject_message"]["message"]`, the dict being
`InjectAgentMessage{message}`), `function_response` the serialized response
payload, `close_message` the close signal (unused by the client's code paths
modelled here beyond existing). -/
structure SpecialPayload where
  inject_message : String
  function_response : String
  close_message : String
deriving Repr, DecidableEq

/-- Outcome of awaiting a handler from `FUNCTION_MAP`:
* `ok s` — a plain handler returned a value whose `json.dumps` is `s`;
* `special p` — a transport-aware handler returned the dict `p`;
* `raises e` — the handler raised an exception with `str(e) = e`. -/
inductive HandlerOutcome
  | ok (s : String)
  | special (p : SpecialPayload)
  | raises (e : String)
deriving Repr, DecidableEq

/-- `json.dumps` of a transport-aware result dict when it is treated as a
plain return value (a plain-named handler returning such a dict). -/
def dumpSpecialPayload (p : SpecialPayload) : String :=
  "\x7binject_message: \x7bmessage: " ++ p.inject_message
    ++ "\x7d, function_response: " ++ p.function_response
    ++ ", close_message: " ++ p.close_message ++ "\x7d"

/-- The capability registry `FUNCTION_MAP` together with the outcome of
awaiting each handler: `registry n = none` models `FUNCTION_MAP.get(n) = None`. -/
structure Env where
  registry : String → Option HandlerOutcome

/-- Rendering of an optional string inside a Python f-string:
a missing value prints as `None`. -/
def pyStr : Option String → String
  | none => "None"
  | some n => n

/-- Session state threaded through the receiver loop
(locals of `VoiceAgent.receiver` plus `self.is_running` and the speaker). -/
structure AgentState where
  last_user_message : Option ℚ
  last_function_response_time : Option ℚ
  in_function_chain : Bool
  speaker : SpeakerState
  is_running : Bool
deriving Repr, DecidableEq

/-! ### `wait_for_farewell_completion` (src/client.py:463-505) -/

/-- First wait loop of `wait_for_farewell_completion`: consume inbound
messages (forwarding binary frames to the speaker) until either an
`AgentStartedSpeaking` arrives or a `ConversationText` with role `assistant`
and content equal to the injected farewell text `fw` arrives.
Returns the actions emitted, the speaker state, and `some rest` with the
unconsumed stream — or `none` for the stream when the awaited message never
arrives (the Python coroutine would block on `ws.recv` forever).
Note `json.loads` failures are caught here (`except json.JSONDecodeError:
continue`), unlike in the receiver's main loop. -/
def farewellPhase1 (fw : String) (sp : SpeakerState) :
    List InMessage → List Action × SpeakerState × Option (List InMessage)
  | [] => ([], sp, none)
  | .binary d :: rest =>
      let res := farewellPhase1 fw (sp.play d) rest
      (.play d :: res.1, res.2.1, res.2.2)
  | .text raw parsed _ _ :: rest =>
      match parsed with
      | none => farewellPhase1 fw sp rest
      | some m =>
          if m.type = some "AgentStartedSpeaking"
              ∨ (m.type = some "ConversationText" ∧ m.role = some "assistant"
                  ∧ m.content = some fw) then
            ([.logInfo ("Server: " ++ raw)], sp, some rest)
          else
            let res := farewellPhase1 fw sp rest
            (.logInfo ("Server: " ++ raw) :: res.1, res.2.1, res.2.2)

/-- Second wait loop of `wait_for_farewell_completion`: consume inbound
messages (still forwarding binary frames to the speaker) until
`AgentAudioDone` arrives. -/
def farewellPhase2 (sp : SpeakerState) :
    List InMessage → List Action × SpeakerState × Option (List InMessage)
  | [] => ([], sp, none)
  | .binary d :: rest =>
      let res := farewellPhase2 (sp.play d) rest
      (.play d :: res.1, res.2.1, res.2.2)
  | .text raw parsed _ _ :: rest =>
      match parsed with
      | none => farewellPhase2 sp rest
      | some m =>
          if m.type = some "AgentAudioDone" then
            ([.logInfo ("Server: " ++ raw)], sp, some rest)
          else
            let res := farewellPhase2 sp rest
            (.logInfo ("Server: " ++ raw) :: res.1, res.2.1, res.2.2)

/-- `inject_agent_message` (src/client.py:449-452): log, then send the
`InjectAgentMessage`. -/
def injectAgentMessageActions (fw : String) : List Action :=
  [.logInfo ("Sending InjectAgentMessage: " ++ fw), .send (.injectAgentMessage fw)]

/-- `wait_for_farewell_completion`: inject the farewell, run the two wait
loops, then `asyncio.sleep(3.5)`.  Returns the emitted actions, the speaker
state, and the unconsumed stream (`none` if a wait loop blocks forever). -/
def wait_for_farewell_completion (sp : SpeakerState) (fw : String)
    (msgs : List InMessage) : List Action × SpeakerState × Option (List InMessage) :=
  let p1 := farewellPhase1 fw sp msgs
  match p1.2.2 with
  | none => (injectAgentMessageActions fw ++ p1.1, p1.2.1, none)
  | some rest1 =>
      let p2 := farewellPhase2 p1.2.1 rest1
      match p2.2.2 with
      | none => (injectAgentMessageActions fw ++ p1.1 ++ p2.1, p2.2.1, none)
      | some rest2 =>
          (injectAgentMessageActions fw ++ p1.1 ++ p2.1 ++ [.sleep (7/2)], p2.2.1, some rest2)

/-! ### The receiver's text-message dispatch (src/client.py:224-371) -/

/-- Result of handling one parsed text message inside the receiver loop:
the updated session state, the actions emitted, whether the branch ended with
`break` (loop over), and whether the branch blocked forever awaiting a
message that never arrived (only possible inside the farewell wait). -/
structure StepOut where
  state : AgentState
  trace : List Action
  breakLoop : Bool
  incomplete : Bool
deriving Repr, DecidableEq

/-- The `except` path of the function dispatcher (src/client.py:351-359):
log the error and send a `FunctionCallResponse` whose output is
`{"error": str(e)}`.  `last_function_response_time` is *not* updated here. -/
def exceptPath (st : AgentState) (baseLogs : List Action) (cid : Option String)
    (e : String) : StepOut :=
  { state := st
    trace := baseLogs ++
      [.logError ("Error executing function: " ++ e),
       .send (.functionCallResponse cid (.error e))]
    breakLoop := false
    incomplete := false }

/-- Handling of one parsed inbound text message by `VoiceAgent.receiver`
(the `isinstance(message, str)` arm, src/client.py:224-368).  `raw` is the
message text (logged as `Server: ...` before parsing), `m` its parsed JSON,
`now`/`fin` the clock reads, and `rest` the not-yet-received tail of the
inbound stream (consumed only by the `end_call` farewell wait). -/
def processText (env : Env) (st : AgentState) (raw : String) (m : ControlMsg)
    (now fin : ℚ) (rest : List InMessage) : StepOut :=
  let serverLog : Action := .logInfo ("Server: " ++ raw)
  if m.type = some "UserStartedSpeaking" then
    { state := { st with speaker := st.speaker.stop }
      trace := [serverLog], breakLoop := false, incomplete := false }
  else if m.type = some "ConversationText" then
    let st' :=
      if m.role = some "user" then
        { st with last_user_message := some now, in_function_chain := false }
      else if m.role = some "assistant" then
        { st with in_function_chain := false }
      else st
    { state := st', trace := [serverLog, .emitConversationUpdate m]
      breakLoop := false, incomplete := false }
  else if m.type = some "FunctionCalling" then
    if st.in_function_chain && truthy st.last_function_response_time then
      { state := st
        trace := [serverLog,
          .logLatencyChain (now - st.last_function_response_time.getD 0)]
        breakLoop := false, incomplete := false }
    else if truthy st.last_user_message then
      { state := { st with in_function_chain := true }
        trace := [serverLog, .logLatencyInitial (now - st.last_user_message.getD 0)]
        breakLoop := false, incomplete := false }
    else
      { state := st, trace := [serverLog], breakLoop := false, incomplete := false }
  else if m.type = some "FunctionCallRequest" then
    let cid := m.function_call_id
    let baseLogs : List Action := [serverLog,
      .logInfo ("Function call received: " ++ pyStr m.function_name),
      .logInfo ("Parameters: " ++ m.input)]
    let lookup : Option HandlerOutcome :=
      match m.function_name with
      | none => none
      | some n => env.registry n
    match lookup with
    | none =>
        exceptPath st baseLogs cid ("Function " ++ pyStr m.function_name ++ " not found")
    | some h =>
        if m.function_name = some "agent_filler" ∨ m.function_name = some "end_call" then
          match h with
          | .raises e => exceptPath st baseLogs cid e
          | .ok _ => exceptPath st baseLogs cid "'inject_message'"
          | .special p =>
              let respActs : List Action :=
                [.send (.functionCallResponse cid (.success p.function_response)),
                 .logInfo ("Function response sent: " ++ p.function_response)]
              if m.function_name = some "agent_filler" then
                { state := { st with last_function_response_time := some fin }
                  trace := baseLogs ++ respActs
                    ++ injectAgentMessageActions p.inject_message
                  breakLoop := false, incomplete := false }
              else
                let st1 := { st with last_function_response_time := some fin }
                let fw := wait_for_farewell_completion st1.speaker p.inject_message rest
                match fw.2.2 with
                | none =>
                    { state := { st1 with speaker := fw.2.1 }
                      trace := baseLogs ++ respActs ++ fw.1
                      breakLoop := true, incomplete := true }
                | some _ =>
                    { state := { st1 with speaker := fw.2.1, is_running := false }
                      trace := baseLogs ++ respActs ++ fw.1
                        ++ [.logInfo "Sending ws close message", .wsCloseWithTimeout]
                      breakLoop := true, incomplete := false }
        else
          match h with
          | .raises e => exceptPath st baseLogs cid e
          | .ok s =>
              { state := { st with last_function_response_time := some fin }
                trace := baseLogs ++ [.logExecLatency (fin - now),
                  .send (.functionCallResponse cid (.success s)),
                  .logInfo ("Function response sent: " ++ s)]
                breakLoop := false, incomplete := false }
          | .special p =>
              { state := { st with last_function_response_time := some fin }
                trace := baseLogs ++ [.logExecLatency (fin - now),
                  .send (.functionCallResponse cid (.success (dumpSpecialPayload p))),
                  .logInfo ("Function response sent: " ++ dumpSpecialPayload p)]
                breakLoop := false, incomplete := false }
  else if m.type = some "Welcome" then
    { state := st
      trace := [serverLog, .logInfo ("Connected with session ID: " ++ pyStr m.session_id)]
      breakLoop := false, incomplete := false }
  else if m.type = some "CloseConnection" then
    { state := st, trace := [serverLog, .logInfo "Closing connection...", .wsClose]
      breakLoop := true, incomplete := false }
  else
    { state := st, trace := [serverLog], breakLoop := false, incomplete := false }

/-- Result of running the receiver loop over a finite inbound stream. -/
structure LoopOut where
  state : AgentState
  trace : List Action
  incomplete : Bool
deriving Repr, DecidableEq

/-- The receiver's main `async for message in self.ws` loop
(src/client.py:215-374).  Binary payloads are forwarded to the speaker; text
payloads are logged, parsed and dispatched.  A `json.loads` failure is not
caught inside the loop: it propagates to the task's outermost handler
(src/client.py:373-374), which logs `Error in receiver: ...` and ends the
task — no further message is processed. -/
def receiverLoop (env : Env) (st : AgentState) : List InMessage → LoopOut
  | [] => { state := st, trace := [], incomplete := false }
  | .binary d :: rest =>
      let out := receiverLoop env { st with speaker := st.speaker.play d } rest
      { state := out.state, trace := .play d :: out.trace, incomplete := out.incomplete }
  | .text raw parsed now fin :: rest =>
      match parsed with
      | none =>
          { state := st
            trace := [.logInfo ("Server: " ++ raw),
              .logError "Error in receiver: JSONDecodeError"]
            incomplete := false }
      | some m =>
          let s := processText env st raw m now fin rest
          if s.breakLoop then
            { state := s.state, trace := s.trace, incomplete := s.incomplete }
          else
            let out := receiverLoop env s.state rest
            { state := out.state, trace := s.trace ++ out.trace
              incomplete := s.incomplete || out.incomplete }

/-- The locals of `VoiceAgent.receiver` at loop entry: no timestamps, not in a
function chain, fresh speaker (empty queue, stop event clear), running. -/
def initialAgentState : AgentState :=
  { last_user_message := none, last_function_response_time := none
    in_function_chain := false
    speaker := { queue := [], stopEvent := false }
    is_running := true }

/-! ### Counting outbound `FunctionCallResponse`s -/

/-- Whether an action is an outbound `FunctionCallResponse` whose
`function_call_id` equals `cid`. -/
def isResponseTo (cid : Option String) : Action → Bool
  | .send (.functionCallResponse c _) => c = cid
  | _ => false

/-- Number of outbound `FunctionCallResponse`s for call id `cid` in a trace. -/
def countResponses (cid : Option String) (l : List Action) : ℕ :=
  l.countP (isResponseTo cid)

theorem countResponses_append (cid : Option String) (a b : List Action) :
    countResponses cid (a ++ b) = countResponses cid a + countResponses cid b :=
  List.countP_append _ a b

theorem countResponses_inject (cid : Option String) (fw : String) :
    countResponses cid (injectAgentMessageActions fw) = 0 := rfl

theorem drainLoop_eq_nil : ∀ q : List Frame, drainLoop q = []
  | [] => rfl
  | _ :: rest => drainLoop_eq_nil rest

theorem farewellPhase1_no_response (cid : Option String) (fw : String) :
    ∀ (ms : List InMessage) (sp : SpeakerState),
      countResponses cid (farewellPhase1 fw sp ms).1 = 0 := by
  intro ms
  induction ms with
  | nil => intro sp; rfl
  | cons hd tl ih =>
      intro sp
      cases hd with
      | binary d =>
          simpa [farewellPhase1, countResponses, isResponseTo] using ih (sp.play d)
      | text raw parsed now fin =>
          cases parsed with
          | none => simpa [farewellPhase1] using ih sp
          | some m =>
              by_cases hc : m.type = some "AgentStartedSpeaking"
                  ∨ (m.type = some "ConversationText" ∧ m.role = some "assistant"
                      ∧ m.content = some fw)
              · simp [farewellPhase1, hc, countResponses, isResponseTo]
              · simpa [farewellPhase1, hc, countResponses, isResponseTo] using ih sp

theorem farewellPhase2_no_response (cid : Option String) :
    ∀ (ms : List InMessage) (sp : SpeakerState),
      countResponses cid (farewellPhase2 sp ms).1 = 0 := by
  intro ms
  induction ms with
  | nil => intro sp; rfl
  | cons hd tl ih =>
      intro sp
      cases hd with
      | binary d =>
          simpa [farewellPhase2, countResponses, isResponseTo] using ih (sp.play d)
      | text raw parsed now fin =>
          cases parsed with
          | none => simpa [farewellPhase2] using ih sp
          | some m =>
              by_cases hc : m.type = some "AgentAudioDone"
              · simp [farewellPhase2, hc, countResponses, isResponseTo]
              · simpa [farewellPhase2, hc, countResponses, isResponseTo] using ih sp

theorem countResponses_single_sleep (cid : Option String) (t : ℚ) :
    countResponses cid [.sleep t] = 0 := rfl

theorem wait_for_farewell_no_response (cid : Option String) (sp : SpeakerState)
    (fw : String) (msgs : List InMessage) :
    countResponses cid (wait_for_farewell_completion sp fw msgs).1 = 0 := by
  unfold wait_for_farewell_completion
  rcases h1 : (farewellPhase1 fw sp msgs).2.2 with _ | rest1
  · simp only [h1, countResponses_append, countResponses_inject,
      farewellPhase1_no_response, Nat.add_zero, Nat.zero_add]
  · rcases h2 : (farewellPhase2 (farewellPhase1 fw sp msgs).2.1 rest1).2.2 with _ | rest2
    · simp only [h1, h2, countResponses_append, countResponses_inject,
        farewellPhase1_no_response, farewellPhase2_no_response, Nat.add_zero, Nat.zero_add]
    · simp only [h1, h2, countResponses_append, countResponses_inject,
        farewellPhase1_no_response, farewellPhase2_no_response,
        countResponses_single_sleep, Nat.add_zero, Nat.zero_add]

/-! ### Claim theorems -/

/-- C10: an inbound text payload that is not valid JSON is caught only by the
receiver task's outermost handler: the receiver logs the message, then the
parse failure aborts the task — the result is independent of every subsequent
inbound message (none of `ms` is processed). -/
theorem invalid_json_aborts_receiver (env : Env) (st : AgentState) (raw : String)
    (now fin : ℚ) (ms : List InMessage) :
    receiverLoop env st (.text raw none now fin :: ms) =
      { state := st
        trace := [.logInfo ("Server: " ++ raw),
          .logError "Error in receiver: JSONDecodeError"]
        incomplete := false } := rfl

/-- C6 counterexample: with one frame (10) already queued and a new frame (11)
captured, a handoff timeout leaves the queue holding the *old* frame: the
newly captured frame is dropped, the oldest is not. -/
theorem capture_timeout_cex :
    (audio_callback true true [10] 11 (some "timed out")).micQueue = [10] ∧
    (audio_callback true true [10] 11 (some "timed out")).micQueue ≠ [11] ∧
    10 ∈ (audio_callback true true [10] 11 (some "timed out")).micQueue ∧
    11 ∉ (audio_callback true true [10] 11 (some "timed out")).micQueue := by
  refine ⟨rfl, by decide, by decide, by decide⟩

/-- C6 (amended): when the capture callback's handoff to the audio queue times
out, the *newly captured* frame is dropped (the queue, and in particular its
oldest entry, is left unchanged), the timeout produces a dropped-frame error
log, and the callback returns normally instead of stalling. -/
theorem capture_timeout_drops_new_frame (q : List Frame) (f : Frame) (e : String) :
    audio_callback true true q f (some e) =
      { micQueue := q
        logs := [.logError ("Error in audio callback: " ++ e)]
        ret := (f, paContinue) } := rfl

/-- C7: whatever the outcome of the cross-thread enqueue (success, timeout or
any other exception), the hardware capture callback returns
`(input_data, paContinue)`; a failing enqueue under the running guard is
caught internally and logged, never propagated. -/
theorem audio_callback_never_raises (running loopOk : Bool) (q : List Frame)
    (f : Frame) (attempt : Option String) :
    (audio_callback running loopOk q f attempt).ret = (f, paContinue) ∧
    (∀ e, attempt = some e → running = true → loopOk = true →
      (audio_callback running loopOk q f attempt).logs =
        [.logError ("Error in audio callback: " ++ e)]) := by
  constructor
  · cases running <;> cases loopOk <;> cases attempt <;> rfl
  · rintro e rfl rfl rfl
    rfl

/-- C7 witness: the callback at a concrete failing enqueue. -/
theorem audio_callback_never_raises_witness :
    (audio_callback true true [] 5 (some "boom")).ret = (5, paContinue) ∧
    (audio_callback true true [] 5 (some "boom")).logs =
      [.logError "Error in audio callback: boom"] := by
  obtain ⟨h1, h2⟩ := audio_callback_never_raises true true [] 5 (some "boom")
  exact ⟨h1, h2 "boom" rfl rfl rfl⟩

/-- C8: `setup` fails exactly when the credential is absent or the transport
handshake fails, and whenever it fails `run` performs no lifecycle step: no
microphone start, no sender/receiver task, no playback. -/
theorem setup_failure_blocks_run (apiKey : Option String) (handshakeOk : Bool) :
    (setup apiKey handshakeOk = false ↔ apiKey = none ∨ handshakeOk = false) ∧
    (∀ micOk, setup apiKey handshakeOk = false → run apiKey handshakeOk micOk = []) := by
  constructor
  · cases apiKey <;> cases handshakeOk <;> simp [setup]
  · intro micOk h
    simp [run, h]

/-- C8 witness: missing credential makes `setup` fail and `run` a no-op. -/
theorem setup_failure_blocks_run_witness :
    setup none true = false ∧ run none true true = [] := by
  obtain ⟨h1, h2⟩ := setup_failure_blocks_run none true
  exact ⟨h1.mpr (Or.inl rfl), h2 true (h1.mpr (Or.inl rfl))⟩

/-- C3: processing `UserStartedSpeaking` empties the playback queue, leaves
the sink thread's stop event untouched, and a frame enqueued after the drain
is alone in the queue and written by the next sink-thread iteration. -/
theorem user_started_speaking_barge_in (env : Env) (st : AgentState) (raw : String)
    (m : ControlMsg) (now fin : ℚ) (rest : List InMessage)
    (h : m.type = some "UserStartedSpeaking") :
    ((processText env st raw m now fin rest).state.speaker.queue = [] ∧
     (processText env st raw m now fin rest).state.speaker.stopEvent
        = st.speaker.stopEvent) ∧
    ∀ f : Frame,
      ((processText env st raw m now fin rest).state.speaker.play f).queue = [f] ∧
      (st.speaker.stopEvent = false →
        playStep ((processText env st raw m now fin rest).state.speaker.play f) =
          ({ queue := [], stopEvent := false }, some f)) := by
  have hp : processText env st raw m now fin rest =
      { state := { st with speaker := st.speaker.stop }
        trace := [.logInfo ("Server: " ++ raw)]
        breakLoop := false, incomplete := false } := by
    unfold processText
    simp [h]
  rw [hp]
  refine ⟨⟨?_, ?_⟩, ?_⟩
  · simp [SpeakerState.stop, drainLoop_eq_nil]
  · simp [SpeakerState.stop]
  · intro f
    constructor
    · simp [SpeakerState.stop, SpeakerState.play, drainLoop_eq_nil]
    · intro hse
      simp [SpeakerState.stop, SpeakerState.play, drainLoop_eq_nil, playStep, hse]

/-- C3 witness fixtures: an empty registry, a session with three queued
frames, and a `UserStartedSpeaking` message. -/
def envNone : Env := ⟨fun _ => none⟩

def stWithQueue : AgentState :=
  { initialAgentState with speaker := { queue := [1, 2, 3], stopEvent := false } }

def uspMsg : ControlMsg :=
  ⟨some "UserStartedSpeaking", none, none, none, none, none, ""⟩

/-- C3 witness: barge-in on a concrete three-frame queue. -/
theorem user_started_speaking_barge_in_witness :
    uspMsg.type = some "UserStartedSpeaking" ∧
    (processText envNone stWithQueue "usp" uspMsg 0 0 []).state.speaker.queue = [] ∧
    (processText envNone stWithQueue "usp" uspMsg 0 0 []).state.speaker.stopEvent = false ∧
    ((processText envNone stWithQueue "usp" uspMsg 0 0 []).state.speaker.play 4).queue
      = [4] ∧
    playStep ((processText envNone stWithQueue "usp" uspMsg 0 0 []).state.speaker.play 4)
      = ({ queue := [], stopEvent := false }, some 4) := by
  obtain ⟨⟨h1, h2⟩, h3⟩ :=
    user_started_speaking_barge_in envNone stWithQueue "usp" uspMsg 0 0 [] rfl
  obtain ⟨h4, h5⟩ := h3 4
  exact ⟨rfl, h1, h2.trans rfl, h4, h5 rfl⟩

/-- The control-message tags handled by the receiver's dispatch chain. -/
def recognizedTag (t : Option String) : Bool :=
  t = some "UserStartedSpeaking" || t = some "ConversationText" ||
    t = some "FunctionCalling" || t = some "FunctionCallRequest" ||
    t = some "Welcome" || t = some "CloseConnection"

/-- C9: a text message whose tag is not one of the recognized variants is
logged and otherwise ignored — no state change, no send, the loop continues
and the remaining messages are processed exactly as they would have been. -/
theorem unknown_tag_ignored (env : Env) (st : AgentState) (raw : String)
    (m : ControlMsg) (now fin : ℚ) (rest ms : List InMessage)
    (h : recognizedTag m.type = false) :
    processText env st raw m now fin rest =
      { state := st, trace := [.logInfo ("Server: " ++ raw)]
        breakLoop := false, incomplete := false } ∧
    receiverLoop env st (.text raw (some m) now fin :: ms) =
      { state := (receiverLoop env st ms).state
        trace := .logInfo ("Server: " ++ raw) :: (receiverLoop env st ms).trace
        incomplete := (receiverLoop env st ms).incomplete } := by
  simp only [recognizedTag, Bool.or_eq_false_iff, decide_eq_false_iff_not] at h
  obtain ⟨⟨⟨⟨⟨h1, h2⟩, h3⟩, h4⟩, h5⟩, h6⟩ := h
  have hp : ∀ r, processText env st raw m now fin r =
      { state := st, trace := [.logInfo ("Server: " ++ raw)]
        breakLoop := false, incomplete := false } := by
    intro r
    unfold processText
    simp [h1, h2, h3, h4, h5, h6]
  refine ⟨hp rest, ?_⟩
  simp [receiverLoop, hp ms]

/-- C9 witness: a concrete message with the unrecognized tag `History`. -/
theorem unknown_tag_ignored_witness :
    recognizedTag (some "History") = false ∧
    processText envNone initialAgentState "hist"
        ⟨some "History", none, none, none, none, none, ""⟩ 0 0 [] =
      { state := initialAgentState, trace := [.logInfo "Server: hist"]
        breakLoop := false, incomplete := false } ∧
    receiverLoop envNone initialAgentState
        [.text "hist" (some ⟨some "History", none, none, none, none, none, ""⟩) 0 0] =
      { state := initialAgentState, trace := [.logInfo "Server: hist"]
        incomplete := false } := by
  obtain ⟨hA, hB⟩ := unknown_tag_ignored envNone initialAgentState "hist"
    ⟨some "History", none, none, none, none, none, ""⟩ 0 0 [] [] rfl
  exact ⟨rfl, hA, hB⟩

/-- C4: on a `FunctionCalling` message at time `now`: inside a function chain
with a (nonzero) prior function-response timestamp `t2`, the logged chain
latency is `now - t2` and nothing else changes; otherwise, with a (nonzero)
last-user-utterance timestamp `t0`, the logged initial latency is `now - t0`
and the chain flag becomes true. -/
theorem function_calling_latency (env : Env) (st : AgentState) (raw : String)
    (m : ControlMsg) (now fin : ℚ) (rest : List InMessage)
    (h : m.type = some "FunctionCalling") :
    (∀ t2 : ℚ, st.in_function_chain = true →
      st.last_function_response_time = some t2 → t2 ≠ 0 →
      processText env st raw m now fin rest =
        { state := st
          trace := [.logInfo ("Server: " ++ raw), .logLatencyChain (now - t2)]
          breakLoop := false, incomplete := false }) ∧
    (∀ t0 : ℚ, (st.in_function_chain && truthy st.last_function_response_time) = false →
      st.last_user_message = some t0 → t0 ≠ 0 →
      processText env st raw m now fin rest =
        { state := { st with in_function_chain := true }
          trace := [.logInfo ("Server: " ++ raw), .logLatencyInitial (now - t0)]
          breakLoop := false, incomplete := false }) := by
  constructor
  · intro t2 hchain hlfrt ht2
    have htr : (st.in_function_chain && truthy st.last_function_response_time) = true := by
      rw [hchain, hlfrt]; simp [truthy, ht2]
    unfold processText
    simp only [h, htr]
    simp [hlfrt]
  · intro t0 hcond hlum ht0
    have htr : truthy (some t0) = true := by simp [truthy, ht0]
    unfold processText
    simp only [h, hcond]
    simp [hlum, htr]

/-- C4 witness: both latency computations at concrete timestamps
(`t0 = 1`, `t2 = 2`, arrival `now = 5`). -/
theorem function_calling_latency_witness :
    processText envNone
        { initialAgentState with
          in_function_chain := true
          last_function_response_time := some 2 } "fc"
        ⟨some "FunctionCalling", none, none, none, none, none, ""⟩ 5 5 [] =
      { state := { initialAgentState with
                   in_function_chain := true
                   last_function_response_time := some 2 }
        trace := [.logInfo "Server: fc", .logLatencyChain 3]
        breakLoop := false, incomplete := false } ∧
    processText envNone
        { initialAgentState with last_user_message := some 1 } "fc"
        ⟨some "FunctionCalling", none, none, none, none, none, ""⟩ 5 5 [] =
      { state := { initialAgentState with
                   last_user_message := some 1
                   in_function_chain := true }
        trace := [.logInfo "Server: fc", .logLatencyInitial 4]
        breakLoop := false, incomplete := false } := by
  obtain ⟨hA, _⟩ := function_calling_latency envNone
    { initialAgentState with
      in_function_chain := true
      last_function_response_time := some 2 } "fc"
    ⟨some "FunctionCalling", none, none, none, none, none, ""⟩ 5 5 [] rfl
  obtain ⟨_, hB⟩ := function_calling_latency envNone
    { initialAgentState with last_user_message := some 1 } "fc"
    ⟨some "FunctionCalling", none, none, none, none, none, ""⟩ 5 5 [] rfl
  constructor
  · have h35 : (5 : ℚ) - 2 = 3 := by norm_num
    have := hA 2 rfl rfl (by norm_num)
    rw [h35] at this
    exact this
  · have h54 : (5 : ℚ) - 1 = 4 := by norm_num
    have := hB 1 rfl rfl (by norm_num)
    rw [h54] at this
    exact this

/-- C5: a `FunctionCallRequest` naming a function absent from the registry is
fully recovered: the dispatcher logs the error and still sends a
`FunctionCallResponse` whose output is an error whose message contains the
unknown function name; no state change, the loop continues. -/
theorem unknown_function_recovered (env : Env) (st : AgentState) (raw : String)
    (m : ControlMsg) (now fin : ℚ) (rest : List InMessage) (n : String)
    (hty : m.type = some "FunctionCallRequest")
    (hn : m.function_name = some n)
    (hreg : env.registry n = none) :
    processText env st raw m now fin rest =
      { state := st
        trace := [.logInfo ("Server: " ++ raw),
          .logInfo ("Function call received: " ++ n),
          .logInfo ("Parameters: " ++ m.input),
          .logError ("Error executing function: " ++ ("Function " ++ n ++ " not found")),
          .send (.functionCallResponse m.function_call_id
            (.error ("Function " ++ n ++ " not found")))]
        breakLoop := false, incomplete := false } ∧
    ∃ pre suf, "Function " ++ n ++ " not found" = pre ++ n ++ suf := by
  refine ⟨?_, "Function ", " not found", rfl⟩
  unfold processText
  simp [hty, hn, hreg, exceptPath, pyStr]

/-- C5 witness: dispatching the unknown function `mystery`. -/
theorem unknown_function_recovered_witness :
    processText envNone initialAgentState "req"
        ⟨some "FunctionCallRequest", none, none, some "mystery", some "1", none, "{}"⟩
        0 0 [] =
      { state := initialAgentState
        trace := [.logInfo "Server: req",
          .logInfo "Function call received: mystery",
          .logInfo "Parameters: {}",
          .logError "Error executing function: Function mystery not found",
          .send (.functionCallResponse (some "1")
            (.error "Function mystery not found"))]
        breakLoop := false, incomplete := false } ∧
    ∃ pre suf, "Function mystery not found" = pre ++ "mystery" ++ suf := by
  obtain ⟨hA, hB⟩ := unknown_function_recovered envNone initialAgentState "req"
    ⟨some "FunctionCallRequest", none, none, some "mystery", some "1", none, "{}"⟩
    0 0 [] "mystery" rfl rfl rfl
  exact ⟨by simpa using hA, hB⟩

/-- C2: dispatching `end_call` performs, in this strict order: send the
`FunctionCallResponse` for the terminating call; send the farewell
`InjectAgentMessage`; consume inbound messages until `AgentStartedSpeaking` or
the matching assistant `ConversationText` (trace `a1`); consume further until
`AgentAudioDone` (trace `a2`); sleep the fixed 3.5-unit tail; close the
transport with a bounded timeout; and mark the session stopped (`is_running`
false, loop `break`).  During both waits binary frames are still forwarded to
playback (second conjunct). -/
theorem end_call_termination_sequence (env : Env) (st : AgentState) (raw : String)
    (m : ControlMsg) (now fin : ℚ) (rest : List InMessage) (p : SpecialPayload)
    (a1 a2 : List Action) (sp1 sp2 : SpeakerState) (rest1 rest2 : List InMessage)
    (hty : m.type = some "FunctionCallRequest")
    (hn : m.function_name = some "end_call")
    (hreg : env.registry "end_call" = some (.special p))
    (h1 : farewellPhase1 p.inject_message st.speaker rest = (a1, sp1, some rest1))
    (h2 : farewellPhase2 sp1 rest1 = (a2, sp2, some rest2)) :
    processText env st raw m now fin rest =
      { state := { st with
                   last_function_response_time := some fin
                   speaker := sp2
                   is_running := false }
        trace := [.logInfo ("Server: " ++ raw),
            .logInfo "Function call received: end_call",
            .logInfo ("Parameters: " ++ m.input),
            .send (.functionCallResponse m.function_call_id (.success p.function_response)),
            .logInfo ("Function response sent: " ++ p.function_response),
            .logInfo ("Sending InjectAgentMessage: " ++ p.inject_message),
            .send (.injectAgentMessage p.inject_message)]
          ++ a1 ++ a2
          ++ [.sleep (7 / 2), .logInfo "Sending ws close message", .wsCloseWithTimeout]
        breakLoop := true, incomplete := false } ∧
    (∀ (sp : SpeakerState) (d : Frame) (ms : List InMessage),
      (farewellPhase1 p.inject_message sp (.binary d :: ms)).1 =
        .play d :: (farewellPhase1 p.inject_message (sp.play d) ms).1 ∧
      (farewellPhase2 sp (.binary d :: ms)).1 =
        .play d :: (farewellPhase2 (sp.play d) ms).1) := by
  constructor
  · have hw : wait_for_farewell_completion st.speaker p.inject_message rest =
        (injectAgentMessageActions p.inject_message ++ a1 ++ a2 ++ [.sleep (7 / 2)],
          sp2, some rest2) := by
      unfold wait_for_farewell_completion
      simp [h1, h2]
    unfold processText
    simp only [hty, hn]
    simp [hreg, hw, injectAgentMessageActions, pyStr]
  · intro sp d ms
    exact ⟨rfl, rfl⟩

/-- C2 witness fixtures: a registry holding only `end_call`, a terminating
request, and an inbound tail carrying farewell audio and the two signals. -/
def endCallEnv : Env :=
  ⟨fun n => if n = "end_call" then some (.special ⟨"Goodbye!", "ok", "close"⟩) else none⟩

def endCallMsg : ControlMsg :=
  ⟨some "FunctionCallRequest", none, none, some "end_call", some "42", none, "{}"⟩

def aspMsg : ControlMsg := ⟨some "AgentStartedSpeaking", none, none, none, none, none, ""⟩

def aadMsg : ControlMsg := ⟨some "AgentAudioDone", none, none, none, none, none, ""⟩

def farewellTail : List InMessage :=
  [.binary 7, .text "asp" (some aspMsg) 1 1, .binary 8, .text "aad" (some aadMsg) 2 2]

/-- C2 witness: the concrete termination sequence, farewell audio included. -/
theorem end_call_termination_sequence_witness :
    processText endCallEnv initialAgentState "req" endCallMsg 5 6 farewellTail =
      { state := { initialAgentState with
                   last_function_response_time := some 6
                   speaker := { queue := [7, 8], stopEvent := false }
                   is_running := false }
        trace := [.logInfo "Server: req",
          .logInfo "Function call received: end_call",
          .logInfo "Parameters: {}",
          .send (.functionCallResponse (some "42") (.success "ok")),
          .logInfo "Function response sent: ok",
          .logInfo "Sending InjectAgentMessage: Goodbye!",
          .send (.injectAgentMessage "Goodbye!"),
          .play 7, .logInfo "Server: asp",
          .play 8, .logInfo "Server: aad",
          .sleep (7 / 2), .logInfo "Sending ws close message", .wsCloseWithTimeout]
        breakLoop := true, incomplete := false } := by
  obtain ⟨hA, _⟩ := end_call_termination_sequence endCallEnv initialAgentState "req"
    endCallMsg 5 6 farewellTail ⟨"Goodbye!", "ok", "close"⟩
    [.play 7, .logInfo "Server: asp"] [.play 8, .logInfo "Server: aad"]
    ⟨[7], false⟩ ⟨[7, 8], false⟩
    [.binary 8, .text "aad" (some aadMsg) 2 2] []
    rfl rfl rfl (by rfl) (by rfl)
  simpa using hA

theorem countResponses_nil (cid : Option String) : countResponses cid [] = 0 := rfl

theorem countResponses_cons (cid : Option String) (a : Action) (l : List Action) :
    countResponses cid (a :: l) =
      countResponses cid l + (if isResponseTo cid a then 1 else 0) := by
  simp [countResponses, List.countP_cons]

/-- C1: every `FunctionCallRequest` handled by the receiver produces exactly
one outbound `FunctionCallResponse` carrying the matching
`function_call_id` — whatever the registry holds and whatever the handler's
outcome (success, transport-aware success, exception, or missing function). -/
theorem fcr_exactly_one_response (env : Env) (st : AgentState) (raw : String)
    (m : ControlMsg) (now fin : ℚ) (rest : List InMessage)
    (h : m.type = some "FunctionCallRequest") :
    countResponses m.function_call_id (processText env st raw m now fin rest).trace
      = 1 := by
  unfold processText
  simp only [h]
  rcases hn : m.function_name with _ | n
  · simp [hn, exceptPath, countResponses_append, countResponses_cons,
      countResponses_nil, isResponseTo]
  · simp only [hn]
    rcases hr : env.registry n with _ | ho
    · simp [hr, exceptPath, countResponses_append, countResponses_cons,
        countResponses_nil, isResponseTo]
    · simp only [hr]
      by_cases hsp : n = "agent_filler" ∨ n = "end_call"
      · cases ho with
        | ok s =>
            simp [hsp, exceptPath, countResponses_append, countResponses_cons,
              countResponses_nil, isResponseTo]
        | raises e =>
            simp [hsp, exceptPath, countResponses_append, countResponses_cons,
              countResponses_nil, isResponseTo]
        | special p =>
            rcases hsp with haf | hec
            · simp [haf, countResponses_append, countResponses_cons,
                countResponses_nil, countResponses_inject, isResponseTo,
                injectAgentMessageActions]
            · subst hec
              rcases hfw : (wait_for_farewell_completion st.speaker
                  p.inject_message rest).2.2 with _ | r
              · simp [hfw, countResponses_append, countResponses_cons,
                  countResponses_nil, wait_for_farewell_no_response, isResponseTo]
              · simp [hfw, countResponses_append, countResponses_cons,
                  countResponses_nil, wait_for_farewell_no_response, isResponseTo]
      · cases ho with
        | ok s =>
            simp [hsp, countResponses_append, countResponses_cons,
              countResponses_nil, isResponseTo]
        | raises e =>
            simp [hsp, exceptPath, countResponses_append, countResponses_cons,
              countResponses_nil, isResponseTo]
        | special p =>
            simp [hsp, countResponses_append, countResponses_cons,
              countResponses_nil, isResponseTo]

/-- C1 witness: the concrete `end_call` request of the C2 scenario yields
exactly one response for its call id. -/
theorem fcr_exactly_one_response_witness :
    countResponses (some "42")
      (processText endCallEnv initialAgentState "req" endCallMsg 5 6 farewellTail).trace
      = 1 := by
  have := fcr_exactly_one_response endCallEnv initialAgentState "req" endCallMsg
    5 6 farewellTail rfl
  simpa using this

end Client
